import Mathlib

set_option maxRecDepth 8000

/-!
Shallow embedding of the E-DNA quiz backend (rubabzahra2481/EDNAbackend).

Part 1 — the scoring engine (`src/s3.js`, functions `calculateLayer1` ..
`calculateLayer7` and `calculateAllResults`).  An answer map is a partial map
from question identifiers to single-character choice codes; a missing key in
the JavaScript object is modelled as `none`.
-/

/-- An answer map: question id to a single-character choice code; `none`
models a key that is absent from the JavaScript object. -/
def AnswerMap : Type := String → Option Char

/-- Builds a concrete answer map from an association list, for evaluating the
scoring functions on explicit inputs. -/
def answersOfList (pairs : List (String × Char)) : AnswerMap :=
  fun q => pairs.lookup q

/-- Embedding of JavaScript `String.prototype.includes`: substring test. -/
def sublistAt : List Char → List Char → Bool
  | [], _ => true
  | _ :: _, [] => false
  | needle, c :: rest => (needle.isPrefixOf (c :: rest)) || sublistAt needle rest

/-- `s.includes(sub)` from JavaScript. -/
def jsIncludes (s sub : String) : Bool := sublistAt sub.data s.data

/-- Result of `calculateLayer1` in `src/s3.js`. -/
structure Layer1Result where
  type : String
  architectCount : Nat
  alchemistCount : Nat
deriving DecidableEq

/-- The eight fixed Layer-1 question slots `L1_Q1` .. `L1_Q8`. -/
def l1Questions : List String :=
  ["L1_Q1", "L1_Q2", "L1_Q3", "L1_Q4", "L1_Q5", "L1_Q6", "L1_Q7", "L1_Q8"]

/-- The body of the Layer-1 loop: `if (answer === 'a') architectCount++;
if (answer === 'b') alchemistCount++;` on the pair of counters. -/
def l1Step (answers : AnswerMap) (ac : Nat × Nat) (q : String) : Nat × Nat :=
  let ac1 := if answers q == some 'a' then (ac.1 + 1, ac.2) else ac
  if answers q == some 'b' then (ac1.1, ac1.2 + 1) else ac1

/-- `calculateLayer1` from `src/s3.js`: one counter is incremented per
recognized answer code over the eight questions, then the type is read off an
exact-count if-chain. -/
def calculateLayer1 (answers : AnswerMap) : Layer1Result :=
  let counts := l1Questions.foldl (l1Step answers) (0, 0)
  let architectCount := counts.1
  let alchemistCount := counts.2
  let type :=
    if architectCount = 8 ∧ alchemistCount = 0 then ("Strong Architect")
    else if architectCount = 7 ∧ alchemistCount = 1 then ("Medium Architect")
    else if architectCount = 6 ∧ alchemistCount = 2 then ("Weak Architect")
    else if architectCount = 0 ∧ alchemistCount = 8 then ("Strong Alchemist")
    else if architectCount = 1 ∧ alchemistCount = 7 then ("Medium Alchemist")
    else if architectCount = 2 ∧ alchemistCount = 6 then ("Weak Alchemist")
    else ("Blurred")
  { type := type, architectCount := architectCount, alchemistCount := alchemistCount }

/-- Result of `calculateLayer2`; `scores` is the JavaScript object in
insertion order, as an association list. -/
structure Layer2Result where
  subtype : String
  path : String
  scores : List (String × Nat)
deriving DecidableEq

/-- `scores[scoreKey] = (scores[scoreKey] || 0) + 1` on a JavaScript object:
increments an existing key in place or appends a new key at the end. -/
def bumpScore (scores : List (String × Nat)) (key : String) : List (String × Nat) :=
  if scores.any (fun p => p.1 == key) then
    scores.map (fun p => if p.1 == key then (p.1, p.2 + 1) else p)
  else scores ++ [(key, 1)]

/-- Question ids read on the architect path: `L2_Q9` .. `L2_Q16`. -/
def architectQids : List String :=
  ["L2_Q9", "L2_Q10", "L2_Q11", "L2_Q12", "L2_Q13", "L2_Q14", "L2_Q15", "L2_Q16"]

/-- Question ids read on the alchemist path: `L2_Q9a` .. `L2_Q16a`. -/
def alchemistQids : List String :=
  ["L2_Q9a", "L2_Q10a", "L2_Q11a", "L2_Q12a", "L2_Q13a", "L2_Q14a", "L2_Q15a", "L2_Q16a"]

/-- Question ids read on the mixed path: `L2_Qm9` .. `L2_Qm16`. -/
def mixedQids : List String :=
  ["L2_Qm9", "L2_Qm10", "L2_Qm11", "L2_Qm12", "L2_Qm13", "L2_Qm14", "L2_Qm15", "L2_Qm16"]

/-- The architect-path answer-to-subtype object in `calculateLayer2`
(`mapping[answer] || ''`). -/
def architectMapping (c : Char) : String :=
  match c with
  | 'a' => ("planner")
  | 'b' => ("operator")
  | 'c' => ("analyst")
  | 'd' => ("ultimate")
  | _ => ("")

/-- The alchemist-path answer-to-subtype object in `calculateLayer2`. -/
def alchemistMapping (c : Char) : String :=
  match c with
  | 'a' => ("oracle")
  | 'b' => ("perfectionist")
  | 'c' => ("empath")
  | 'd' => ("ultimate")
  | _ => ("")

/-- `subtype.charAt(0).toUpperCase() + subtype.slice(1)`; on the empty string
this is again the empty string. -/
def capitalize (s : String) : String :=
  match s.data with
  | [] => ("")
  | c :: rest => String.mk (c.toUpper :: rest)

/-- `calculateLayer2` from `src/s3.js`.  The path and question prefix follow
from the Layer-1 type string; only the architect and alchemist branches of the
loop body assign a non-empty `scoreKey`, the mixed path leaves it `''`. -/
def calculateLayer2 (answers : AnswerMap) (layer1Result : Layer1Result) : Layer2Result :=
  let pathQids : String × List String :=
    if jsIncludes layer1Result.type ("Architect") then (("architect"), architectQids)
    else if jsIncludes layer1Result.type ("Alchemist") then (("alchemist"), alchemistQids)
    else (("mixed"), mixedQids)
  let path := pathQids.1
  let scores :=
    pathQids.2.foldl
      (fun scores qid =>
        match answers qid with
        | none => scores
        | some answer =>
          let scoreKey :=
            if path == ("architect") then architectMapping answer
            else if path == ("alchemist") then alchemistMapping answer
            else ("")
          if scoreKey == ("") then scores else bumpScore scores scoreKey)
      []
  let dominant := scores.foldl (fun acc p => if p.2 > acc.2 then p else acc) (("" : String), 0)
  { subtype := capitalize dominant.1, path := path, scores := scores }

/-- A fixed quiz dimension: question id, human-readable name, label list. -/
structure LabeledDim where
  qid : String
  name : String
  labels : List String
deriving DecidableEq

/-- One Layer-3 dimension entry: numeric score and label. -/
structure DimensionScore where
  score : Nat
  label : String
deriving DecidableEq

/-- Result of `calculateLayer3`. -/
structure Layer3Result where
  totalScore : Nat
  maxScore : Nat
  dimensions : List (String × DimensionScore)
deriving DecidableEq

/-- The `dimensionMap` object of `calculateLayer3`. -/
def layer3Dims : List LabeledDim :=
  [⟨("L3_Q17"), ("Validator Awareness"), [("Opposite"), ("Partial"), ("Full")]⟩,
   ⟨("L3_Q18"), ("Emotional Regulation"), [("Reactive"), ("Aware"), ("Integrated")]⟩,
   ⟨("L3_Q19"), ("Feedback Processing"), [("Defensive"), ("Selective"), ("Open")]⟩,
   ⟨("L3_Q20"), ("Blind Spot Recognition"), [("Unaware"), ("Emerging"), ("Aware")]⟩,
   ⟨("L3_Q21"), ("Self-Correction Speed"), [("Slow"), ("Moderate"), ("Fast")]⟩,
   ⟨("L3_Q22"), ("Growth Orientation"), [("Fixed"), ("Mixed"), ("Growth")]⟩]

/-- The per-question score of `calculateLayer3`: `a`/`b`/`c` give 0/1/2, any
other or missing answer leaves the initial 0. -/
def layer3Score (answers : AnswerMap) (d : LabeledDim) : Nat :=
  if answers d.qid == some 'a' then 0
  else if answers d.qid == some 'b' then 1
  else if answers d.qid == some 'c' then 2
  else 0

/-- The per-question label of `calculateLayer3`; unrecognized or missing
answers leave the initial `''`. -/
def layer3Label (answers : AnswerMap) (d : LabeledDim) : String :=
  if answers d.qid == some 'a' then d.labels.getD 0 ("")
  else if answers d.qid == some 'b' then d.labels.getD 1 ("")
  else if answers d.qid == some 'c' then d.labels.getD 2 ("")
  else ("")

/-- `calculateLayer3` from `src/s3.js`: the loop writes one entry per fixed
dimension and accumulates the six scores into `totalScore`. -/
def calculateLayer3 (answers : AnswerMap) : Layer3Result :=
  { totalScore := (layer3Dims.map (fun d => layer3Score answers d)).sum
    maxScore := 12
    dimensions := layer3Dims.map (fun d => (d.name, ⟨layer3Score answers d, layer3Label answers d⟩)) }

/-- A JavaScript number that is either `NaN` or an integer (all numbers
produced by the scoring engine are integers when they are not `NaN`). -/
inductive JsNumber where
  | nan : JsNumber
  | int (value : Int) : JsNumber
deriving DecidableEq

/-- The `scores` histogram of `calculateLayer4`. -/
structure VarkScores where
  visual : Nat
  auditory : Nat
  readWrite : Nat
  kinesthetic : Nat
deriving DecidableEq

/-- The `percentages` object of `calculateLayer4`. -/
structure VarkPercentages where
  visual : JsNumber
  auditory : JsNumber
  readWrite : JsNumber
  kinesthetic : JsNumber
deriving DecidableEq

/-- Result of `calculateLayer4`. -/
structure Layer4Result where
  dominantModality : String
  scores : VarkScores
  percentages : VarkPercentages
deriving DecidableEq

/-- The five fixed Layer-4 question slots `L4_Q23` .. `L4_Q27`. -/
def l4Questions : List String :=
  ["L4_Q23", "L4_Q24", "L4_Q25", "L4_Q26", "L4_Q27"]

/-- Bucket count for one choice code: the loop of `calculateLayer4` increments
`scores[mapping[answer]]`, and the VARK mapping sends each of `a`..`d` to a
distinct bucket, so each bucket holds the count of its own code. -/
def countModality (answers : AnswerMap) (c : Char) : Nat :=
  l4Questions.countP (fun q => answers q == some c)

/-- `Math.round((count / total) * 100)` on non-negative integers: for
`total = 0` JavaScript evaluates `0 / 0` to `NaN` and `Math.round(NaN)` is
`NaN`; otherwise `Math.round` is round-half-up, i.e. the floor of
`count * 100 / total + 1 / 2`. -/
def jsRoundPct (count total : Nat) : JsNumber :=
  if total == 0 then JsNumber.nan
  else JsNumber.int ((200 * count + total) / (2 * total) : Nat)

/-- `calculateLayer4` from `src/s3.js`. -/
def calculateLayer4 (answers : AnswerMap) : Layer4Result :=
  let scores : VarkScores :=
    ⟨countModality answers 'a', countModality answers 'b',
     countModality answers 'c', countModality answers 'd'⟩
  let total := scores.visual + scores.auditory + scores.readWrite + scores.kinesthetic
  let percentages : VarkPercentages :=
    ⟨jsRoundPct scores.visual total, jsRoundPct scores.auditory total,
     jsRoundPct scores.readWrite total, jsRoundPct scores.kinesthetic total⟩
  let dominant :=
    [(("visual" : String), scores.visual), (("auditory"), scores.auditory),
     (("readWrite"), scores.readWrite), (("kinesthetic"), scores.kinesthetic)].foldl
      (fun acc p => if p.2 > acc.2 then p else acc) (("visual"), scores.visual)
  { dominantModality := dominant.1, scores := scores, percentages := percentages }

/-- Result of `calculateLayer5`: raw answers stored verbatim under named keys;
unanswered questions are omitted. -/
structure Layer5Result where
  profile : List (String × Char)
deriving DecidableEq

/-- The `dimensions` array of `calculateLayer5`: question id and name. -/
def layer5Dims : List (String × String) :=
  [("L5_Q28", "Focus Pattern"), ("L5_Q29", "Processing Speed"),
   ("L5_Q30", "Energy Pattern"), ("L5_Q31", "Task Switching"),
   ("L5_Q32", "Stress Response"), ("L5_Q33", "Recovery Pattern")]

/-- `calculateLayer5` from `src/s3.js`. -/
def calculateLayer5 (answers : AnswerMap) : Layer5Result :=
  { profile := layer5Dims.filterMap (fun d => (answers d.1).map (fun answer => (d.2, answer))) }

/-- The `mindset` object of `calculateLayer6`. -/
structure MindsetResult where
  growthFixed : String
  abundanceScarcity : String
  challengeComfort : String
deriving DecidableEq

/-- The `personality` object of `calculateLayer6`. -/
structure PersonalityResult where
  coreType : String
  communicationStyle : String
deriving DecidableEq

/-- Result of `calculateLayer6`. -/
structure Layer6Result where
  mindset : MindsetResult
  personality : PersonalityResult
deriving DecidableEq

/-- `calculateLayer6` from `src/s3.js`: three binary mindset axes, a 2-by-2
if-chain over `L6_Q37` and `L6_Q38` whose fall-through leaves `coreType` as
`''`, and a binary communication style. -/
def calculateLayer6 (answers : AnswerMap) : Layer6Result :=
  let mindset : MindsetResult :=
    { growthFixed := if answers ("L6_Q34") == some 'a' then ("Growth") else ("Fixed")
      abundanceScarcity := if answers ("L6_Q35") == some 'a' then ("Abundance") else ("Scarcity")
      challengeComfort := if answers ("L6_Q36") == some 'a' then ("Challenge") else ("Comfort") }
  let q37 := answers ("L6_Q37")
  let q38 := answers ("L6_Q38")
  let coreType :=
    if q37 == some 'a' && q38 == some 'a' then ("Confident & Steady")
    else if q37 == some 'a' && q38 == some 'b' then ("Confident & Driven")
    else if q37 == some 'b' && q38 == some 'a' then ("Considerate & Steady")
    else if q37 == some 'b' && q38 == some 'b' then ("Fast-Moving & Adaptive")
    else ("")
  { mindset := mindset
    personality :=
      { coreType := coreType
        communicationStyle :=
          if answers ("L6_Q39") == some 'a' then ("Direct Communicator")
          else ("Diplomatic Communicator") } }

/-- Result of `calculateLayer7`: per-dimension ternary labels; unanswered
questions are omitted. -/
structure Layer7Result where
  beliefs : List (String × String)
deriving DecidableEq

/-- The `mapping` object of `calculateLayer7`. -/
def layer7Dims : List LabeledDim :=
  [⟨("L7_Q40"), ("Grounding Source"), [("Self-Reliant"), ("Faith-Reliant"), ("Dual-Reliant")]⟩,
   ⟨("L7_Q41"), ("Control Belief"), [("I\x27m In Control"), ("Life Influences Me"), ("Shared Control")]⟩,
   ⟨("L7_Q42"), ("Fairness View"), [("Responsibility View"), ("Compassion View"), ("Balanced View")]⟩,
   ⟨("L7_Q43"), ("Honesty Style"), [("Direct Honesty"), ("Gentle Honesty"), ("Balanced Honesty")]⟩,
   ⟨("L7_Q44"), ("Growth Approach"), [("Growth Focused"), ("Comfort Focused"), ("Steady Growth")]⟩,
   ⟨("L7_Q45"), ("Impact Motivation"), [("Self-Focused Impact"), ("Others-Focused Impact"), ("Shared Impact")]⟩]

/-- `data.labels[answer.charCodeAt(0) - 97] || ''`: the index may be negative
or past the end of the three-element label array, in which case the JavaScript
indexing yields `undefined` and `|| ''` turns it into the empty string. -/
def jsCharLabel (labels : List String) (c : Char) : String :=
  let index : Int := (c.toNat : Int) - 97
  if 0 ≤ index ∧ index < labels.length then labels.getD index.toNat ("") else ("")

/-- `calculateLayer7` from `src/s3.js`. -/
def calculateLayer7 (answers : AnswerMap) : Layer7Result :=
  { beliefs :=
      layer7Dims.filterMap
        (fun d => (answers d.qid).map (fun answer => (d.name, jsCharLabel d.labels answer))) }

/-- The seven-layer result object returned by `calculateAllResults`. -/
structure AllResults where
  layer1 : Layer1Result
  layer2 : Layer2Result
  layer3 : Layer3Result
  layer4 : Layer4Result
  layer5 : Layer5Result
  layer6 : Layer6Result
  layer7 : Layer7Result
deriving DecidableEq

/-- `calculateAllResults` from `src/s3.js`: Layer 2 receives the Layer-1
result, all other layers read the answer map independently. -/
def calculateAllResults (answers : AnswerMap) : AllResults :=
  let layer1 := calculateLayer1 answers
  { layer1 := layer1
    layer2 := calculateLayer2 answers layer1
    layer3 := calculateLayer3 answers
    layer4 := calculateLayer4 answers
    layer5 := calculateLayer5 answers
    layer6 := calculateLayer6 answers
    layer7 := calculateLayer7 answers }

/-!
Part 2 — the persistence layer and the download-token protocol.

The PostgreSQL module (`postgres-db.js`) is embedded as explicit state
passing: the `quiz_results` table is a list of rows whose `id` column is the
primary key, the `pdf_download_tokens` table is a list of rows whose `token`
column is the primary key, and `CURRENT_TIMESTAMP` is an explicit integer
parameter.
-/

/-- A row of the `quiz_results` table (`postgres-db.js`, `initializeDatabase`). -/
structure QuizRow where
  id : String
  email : String
  name : String
  quiz_data : String
  edna_type : Option String
  core_type : Option String
  subtype : Option String
  core_mastery : Option Int
  subtype_mastery : Option Int
  pdf_url : Option String
  s3_key : Option String
  created_at : Int
  updated_at : Int
deriving DecidableEq

/-- A row of the `pdf_download_tokens` table. -/
structure TokenRow where
  token : String
  quiz_result_id : String
  expires_at : Int
  created_at : Int
deriving DecidableEq

/-- The `{success: true, data}` / `{success: false, error}` objects every
database function in `postgres-db.js` returns. -/
inductive DbResult (α : Type) where
  | ok (data : α) : DbResult α
  | fail (error : String) : DbResult α
deriving DecidableEq

/-- The fields `saveQuizResult` extracts from its `results` argument:
`JSON.stringify(results)` plus the denormalized columns
(`results.ednaType || null` and so on). -/
structure ResultsPayload where
  serialized : String
  ednaType : Option String
  coreType : Option String
  subtype : Option String
  coreTypeMastery : Option Int
  subtypeMastery : Option Int
deriving DecidableEq

/-- JavaScript `String.prototype.toLowerCase` on the character list. -/
def jsToLower (s : String) : String := String.mk (s.data.map Char.toLower)

/-- JavaScript `String.prototype.trim`: strips leading and trailing
whitespace. -/
def jsTrim (s : String) : String :=
  String.mk (((s.data.dropWhile Char.isWhitespace).reverse.dropWhile Char.isWhitespace).reverse)

/-- `email.toLowerCase().trim()` as done by `saveQuizResult` and
`getQuizResultByEmail`. -/
def normalizeEmail (email : String) : String := jsTrim (jsToLower email)

/-- The SQL expression `LOWER(TRIM(email))` used in the exact-match query. -/
def sqlLowerTrim (s : String) : String := jsToLower (jsTrim s)

/-- The column assignments of the `ON CONFLICT (id) DO UPDATE SET` clause of
`saveQuizResult`: every inserted column except `id`, `email` and `name` is
overwritten from `EXCLUDED`, and `updated_at` is set to the current time;
`created_at` is left untouched. -/
def upsertFields (r : QuizRow) (results : ResultsPayload) (pdfUrl s3Key : Option String)
    (now : Int) : QuizRow :=
  { r with
    quiz_data := results.serialized
    edna_type := results.ednaType
    core_type := results.coreType
    subtype := results.subtype
    core_mastery := results.coreTypeMastery
    subtype_mastery := results.subtypeMastery
    pdf_url := pdfUrl
    s3_key := s3Key
    updated_at := now }

/-- The conflict branch of the upsert applied to one stored row: the row with
the conflicting id is overwritten per the `DO UPDATE SET` clause, every other
row is untouched. -/
def saveUpdateRow (id : String) (results : ResultsPayload) (pdfUrl s3Key : Option String)
    (now : Int) (r : QuizRow) : QuizRow :=
  if r.id == id then upsertFields r results pdfUrl s3Key now else r

/-- The freshly inserted row of `saveQuizResult`: the email is stored
normalized and `created_at` and `updated_at` both default to the current
timestamp. -/
def newQuizRow (id email name : String) (results : ResultsPayload)
    (pdfUrl s3Key : Option String) (now : Int) : QuizRow :=
  { id := id, email := normalizeEmail email, name := name
    quiz_data := results.serialized
    edna_type := results.ednaType
    core_type := results.coreType
    subtype := results.subtype
    core_mastery := results.coreTypeMastery
    subtype_mastery := results.subtypeMastery
    pdf_url := pdfUrl, s3_key := s3Key
    created_at := now, updated_at := now }

/-- `saveQuizResult` from `postgres-db.js`: an upsert keyed on the primary key
`id` (`INSERT ... ON CONFLICT (id) DO UPDATE SET ...`). -/
def saveQuizResult (id email name : String) (results : ResultsPayload)
    (pdfUrl s3Key : Option String) (now : Int) (store : List QuizRow) : List QuizRow :=
  if store.any (fun r => r.id == id) then
    store.map (saveUpdateRow id results pdfUrl s3Key now)
  else
    store ++ [newQuizRow id email name results pdfUrl s3Key now]

/-- `ORDER BY created_at DESC LIMIT 1`: the row with the greatest
`created_at`.  PostgreSQL leaves the order of equal keys unspecified; this
model keeps the earliest such row in store order. -/
def latestRow (rows : List QuizRow) : Option QuizRow :=
  rows.foldl
    (fun acc r =>
      match acc with
      | none => some r
      | some best => if r.created_at > best.created_at then some r else some best)
    none

/-- `email ILIKE '%pattern%'`: case-insensitive substring containment. -/
def iLikeContains (value pattern : String) : Bool :=
  sublistAt (jsToLower pattern).data (jsToLower value).data

/-- `getQuizResultByEmail` from `postgres-db.js`: first an exact match on
`LOWER(TRIM(email))`, then a fallback `ILIKE '%<normalized>%'` substring
query, otherwise the not-found error. -/
def getQuizResultByEmail (email : String) (store : List QuizRow) : DbResult QuizRow :=
  let normalizedEmail := normalizeEmail email
  match latestRow (store.filter (fun r => sqlLowerTrim r.email == normalizedEmail)) with
  | some row => DbResult.ok row
  | none =>
    match latestRow (store.filter (fun r => iLikeContains r.email normalizedEmail)) with
    | some row => DbResult.ok row
    | none => DbResult.fail ("Quiz result not found")

/-- `createDownloadToken` from `postgres-db.js`: a plain `INSERT` into
`pdf_download_tokens`, which the schema rejects on a duplicate token (primary
key) or an unknown `quiz_result_id` (foreign key into `quiz_results`). -/
def createDownloadToken (token quizResultId : String) (expiresAt now : Int)
    (tokens : List TokenRow) (quizzes : List QuizRow) : DbResult (List TokenRow) :=
  if tokens.any (fun t => t.token == token) then
    DbResult.fail ("duplicate key value violates unique constraint")
  else if !(quizzes.any (fun q => q.id == quizResultId)) then
    DbResult.fail ("insert violates foreign key constraint")
  else
    DbResult.ok (tokens ++
      [{ token := token, quiz_result_id := quizResultId
         expires_at := expiresAt, created_at := now }])

/-- The inner join `pdf_download_tokens t JOIN quiz_results q ON
t.quiz_result_id = q.id`. -/
def joinedRows (tokens : List TokenRow) (quizzes : List QuizRow) : List (TokenRow × QuizRow) :=
  tokens.flatMap (fun t => (quizzes.filter (fun q => q.id == t.quiz_result_id)).map (fun q => (t, q)))

/-- `verifyDownloadToken` from `postgres-db.js`: the single query
`SELECT t.*, q.* FROM pdf_download_tokens t JOIN quiz_results q ON
t.quiz_result_id = q.id WHERE t.token = $1 AND t.expires_at >
CURRENT_TIMESTAMP`; an empty result set yields the one error
`'Invalid or expired token'` for both unknown and expired tokens. -/
def verifyDownloadToken (tokens : List TokenRow) (quizzes : List QuizRow) (now : Int)
    (token : String) : DbResult (TokenRow × QuizRow) :=
  match (joinedRows tokens quizzes).filter (fun p => p.1.token == token && now < p.1.expires_at) with
  | [] => DbResult.fail ("Invalid or expired token")
  | row :: _ => DbResult.ok row

/-- Body of an HTTP response of the `/download` handler: a JSON error
envelope or a redirect. -/
inductive RespBody where
  | jsonError (message : String) : RespBody
  | redirect (url : String) : RespBody
deriving DecidableEq

/-- An HTTP response: status code and body. -/
structure HttpResponse where
  status : Nat
  body : RespBody
deriving DecidableEq

/-- The `GET /download` handler of `src/index-updated.js`: `!token` catches an
absent or empty query parameter (400); a failed `verifyDownloadToken` gives
404 `'Invalid or unknown link'`; a failed presigned-URL generation gives 500;
otherwise `res.redirect` (302) to the fresh presigned URL.  The storage
collaborator `generatePresignedPdfUrl` is passed in as the function
`presign`. -/
def downloadHandler (tokenParam : Option String) (tokens : List TokenRow)
    (quizzes : List QuizRow) (now : Int) (presign : Option String → DbResult String) :
    HttpResponse :=
  match tokenParam with
  | none => ⟨400, RespBody.jsonError ("Missing token")⟩
  | some token =>
    if token == ("") then ⟨400, RespBody.jsonError ("Missing token")⟩
    else
      match verifyDownloadToken tokens quizzes now token with
      | DbResult.fail _ => ⟨404, RespBody.jsonError ("Invalid or unknown link")⟩
      | DbResult.ok record =>
        match presign record.2.s3_key with
        | DbResult.fail _ => ⟨500, RespBody.jsonError ("Could not generate download link")⟩
        | DbResult.ok url => ⟨302, RespBody.redirect url⟩

/-!
Part 3 — the download token minted by the pipeline.

Both `POST /api/quiz/generate-pdf` and `generatePDFInBackground` in
`src/index-updated.js` mint the token as `const token = uuidv4()`.  `uuidv4`
is the `v4` export of the `uuid` npm package: it draws 16 bytes from a
CSPRNG, forces byte 6 to `(b & 0x0f) | 0x40` (version 4) and byte 8 to
`(b & 0x3f) | 0x80` (RFC 4122 variant), and formats the result as the usual
hex string with dashes.  The random input is modelled as a function from the
16 byte positions to byte values.
-/

/-- Lower-case hex digit of a value below 16. -/
def hexChar (n : Nat) : Char := if n < 10 then Char.ofNat (48 + n) else Char.ofNat (87 + n)

/-- Two hex digits of one byte. -/
def byteHex (b : Nat) : List Char := [hexChar (b / 16), hexChar (b % 16)]

/-- The `unsafeStringify` layout of the `uuid` package: bytes 0-3, dash,
4-5, dash, 6-7, dash, 8-9, dash, 10-15, each byte as two hex digits. -/
def uuidStringify (b : Fin 16 → Nat) : String :=
  String.mk
    (byteHex (b 0) ++ byteHex (b 1) ++ byteHex (b 2) ++ byteHex (b 3) ++
     '-' :: (byteHex (b 4) ++ byteHex (b 5) ++
     '-' :: (byteHex (b 6) ++ byteHex (b 7) ++
     '-' :: (byteHex (b 8) ++ byteHex (b 9) ++
     '-' :: (byteHex (b 10) ++ byteHex (b 11) ++ byteHex (b 12) ++
             byteHex (b 13) ++ byteHex (b 14) ++ byteHex (b 15))))))

/-- The version and variant masking of `uuid`'s `v4`:
`rnds[6] = (rnds[6] & 0x0f) | 0x40` and `rnds[8] = (rnds[8] & 0x3f) | 0x80`. -/
def uuidMaskedBytes (r : Fin 16 → Fin 256) : Fin 16 → Nat := fun i =>
  if i.val = 6 then Nat.lor (Nat.land (r 6).val 15) 64
  else if i.val = 8 then Nat.lor (Nat.land (r 8).val 63) 128
  else (r i).val

/-- `uuidv4()` as a function of the 16 CSPRNG bytes. -/
def uuidv4 (r : Fin 16 → Fin 256) : String := uuidStringify (uuidMaskedBytes r)

/-- The set of all token strings `uuidv4` can produce. -/
def possibleUuidTokens : Finset String := Finset.image uuidv4 Finset.univ

/-- The 122 free bits of a version-4 UUID: 14 unconstrained bytes, the low
nibble of byte 6 and the low six bits of byte 8. -/
abbrev UuidFreeBits : Type := (Fin 14 → Fin 256) × Fin 16 × Fin 64

/-- Reassembles the masked byte array from the 122 free bits. -/
def expandFreeBits (d : UuidFreeBits) : Fin 16 → Nat := fun i =>
  if h6 : i.val = 6 then d.2.1.val + 64
  else if h8 : i.val = 8 then d.2.2.val + 128
  else if hlow : i.val < 6 then (d.1 ⟨i.val, by omega⟩).val
  else if h7 : i.val = 7 then (d.1 ⟨6, by omega⟩).val
  else (d.1 ⟨i.val - 2, by have h15 := i.isLt; omega⟩).val

/-- Extracts the 122 free bits from the 16 random bytes. -/
def compressBits (r : Fin 16 → Fin 256) : UuidFreeBits :=
  (fun j =>
    if hlow : j.val < 6 then r ⟨j.val, by omega⟩
    else if h7 : j.val = 6 then r ⟨7, by omega⟩
    else r ⟨j.val + 2, by have h14 := j.isLt; omega⟩,
   ⟨(r 6).val % 16, by omega⟩,
   ⟨(r 8).val % 64, by omega⟩)

/-!
Part 4 — specification-side definitions used to state the claims, and
concrete fixtures used by witnesses and counterexamples.
-/

/-- The exact-count lookup table of the spec for Layer 1, stated on the two
counters (8/0, 7/1, 6/2 architect; 0/8, 1/7, 2/6 alchemist; every other
combination is Blurred). -/
def layer1TypeOfCounts (architectCount alchemistCount : Nat) : String :=
  if architectCount = 8 ∧ alchemistCount = 0 then ("Strong Architect")
  else if architectCount = 7 ∧ alchemistCount = 1 then ("Medium Architect")
  else if architectCount = 6 ∧ alchemistCount = 2 then ("Weak Architect")
  else if architectCount = 0 ∧ alchemistCount = 8 then ("Strong Alchemist")
  else if architectCount = 1 ∧ alchemistCount = 7 then ("Medium Alchemist")
  else if architectCount = 2 ∧ alchemistCount = 6 then ("Weak Alchemist")
  else ("Blurred")

/-- Number of Layer-1 questions answered with a given choice code. -/
def countChoice (answers : AnswerMap) (c : Char) : Nat :=
  l1Questions.countP (fun q => answers q == some c)

/-- The 2-by-2 lookup table of the spec for the Layer-6 personality core
type; every unmapped combination, including a missing answer, is the empty
string. -/
def coreTypeSpec (q37 q38 : Option Char) : String :=
  if q37 = some 'a' ∧ q38 = some 'a' then ("Confident & Steady")
  else if q37 = some 'a' ∧ q38 = some 'b' then ("Confident & Driven")
  else if q37 = some 'b' ∧ q38 = some 'a' then ("Considerate & Steady")
  else if q37 = some 'b' ∧ q38 = some 'b' then ("Fast-Moving & Adaptive")
  else ("")

/-- Structural completeness of a seven-layer result: every layer field is a
fully formed object, categorical outputs come from their fixed vocabularies,
the Layer-3 dimension set is exactly the six fixed dimensions, and the
omission-style layers only carry keys from their fixed question sets. -/
def structurallyComplete (r : AllResults) : Prop :=
  r.layer1.type ∈
      [("Strong Architect"), ("Medium Architect"), ("Weak Architect"),
       ("Strong Alchemist"), ("Medium Alchemist"), ("Weak Alchemist"), ("Blurred")] ∧
  r.layer2.path ∈ [("architect"), ("alchemist"), ("mixed")] ∧
  r.layer3.maxScore = 12 ∧
  r.layer3.totalScore ≤ 12 ∧
  r.layer3.dimensions.map Prod.fst = layer3Dims.map LabeledDim.name ∧
  r.layer4.dominantModality ∈ [("visual"), ("auditory"), ("readWrite"), ("kinesthetic")] ∧
  (∀ p ∈ r.layer5.profile, p.1 ∈ layer5Dims.map Prod.snd) ∧
  r.layer6.mindset.growthFixed ∈ [("Growth"), ("Fixed")] ∧
  r.layer6.mindset.abundanceScarcity ∈ [("Abundance"), ("Scarcity")] ∧
  r.layer6.mindset.challengeComfort ∈ [("Challenge"), ("Comfort")] ∧
  r.layer6.personality.coreType ∈
      [("Confident & Steady"), ("Confident & Driven"), ("Considerate & Steady"),
       ("Fast-Moving & Adaptive"), ("")] ∧
  r.layer6.personality.communicationStyle ∈
      [("Direct Communicator"), ("Diplomatic Communicator")] ∧
  (∀ p ∈ r.layer7.beliefs, p.1 ∈ layer7Dims.map LabeledDim.name)

/-- The primary-key invariant of the `quiz_results` table: pairwise distinct
ids. -/
def pkUniqueRows (store : List QuizRow) : Prop :=
  store.Pairwise (fun a b => a.id ≠ b.id)

/-- Forgets the `updated_at` audit column, the only column a repeated upsert
may still change. -/
def eraseAudit (r : QuizRow) : QuizRow := { r with updated_at := 0 }

/-- Answer map answering all eight mixed-path Layer-2 questions with `a`. -/
def mixedAllA : AnswerMap :=
  answersOfList
    [("L2_Qm9", 'a'), ("L2_Qm10", 'a'), ("L2_Qm11", 'a'), ("L2_Qm12", 'a'),
     ("L2_Qm13", 'a'), ("L2_Qm14", 'a'), ("L2_Qm15", 'a'), ("L2_Qm16", 'a')]

/-- A stored quiz-result row used by the download-endpoint counterexample. -/
def sampleQuizRow : QuizRow :=
  { id := ("r1"), email := ("user@example.com"), name := ("User")
    quiz_data := ("\x7b\x7d")
    edna_type := none, core_type := none, subtype := none
    core_mastery := none, subtype_mastery := none
    pdf_url := some ("https://cdn.example.com/r1.pdf"), s3_key := some ("pdfs/r1.pdf")
    created_at := 0, updated_at := 0 }

/-- A token for `sampleQuizRow` that expires at time 10. -/
def sampleExpiredToken : TokenRow :=
  { token := ("expired-token"), quiz_result_id := ("r1"), expires_at := 10, created_at := 0 }

/-- A storage collaborator whose presigned-URL generation always succeeds. -/
def okPresign : Option String → DbResult String :=
  fun _ => DbResult.ok ("https://s3.example.com/signed")

/-- A stored row whose email strictly contains the query email of the
substring-fallback claim. -/
def substringRow : QuizRow :=
  { id := ("r-c10"), email := ("john.doe@example.com"), name := ("John")
    quiz_data := ("\x7b\x7d")
    edna_type := none, core_type := none, subtype := none
    core_mastery := none, subtype_mastery := none
    pdf_url := none, s3_key := none
    created_at := 5, updated_at := 5 }

/-- A concrete results payload for the idempotence witness. -/
def samplePayload : ResultsPayload :=
  { serialized := ("\x7b\x7d"), ednaType := some ("Architect"), coreType := some ("architect")
    subtype := some ("Planner"), coreTypeMastery := some 80, subtypeMastery := some 70 }

example :
    (calculateLayer1 (answersOfList
      [("L1_Q1", 'a'), ("L1_Q2", 'a'), ("L1_Q3", 'a'), ("L1_Q4", 'a'),
       ("L1_Q5", 'a'), ("L1_Q6", 'a'), ("L1_Q7", 'a'), ("L1_Q8", 'a')])).type
      = ("Strong Architect") := by decide

example :
    (calculateLayer1 (answersOfList
      [("L1_Q1", 'a'), ("L1_Q2", 'a'), ("L1_Q3", 'a'), ("L1_Q4", 'a'),
       ("L1_Q5", 'a'), ("L1_Q6", 'b'), ("L1_Q7", 'b'), ("L1_Q8", 'b')])).type
      = ("Blurred") := by decide

example : calculateLayer4 (answersOfList []) =
    { dominantModality := ("visual")
      scores := ⟨0, 0, 0, 0⟩
      percentages := ⟨JsNumber.nan, JsNumber.nan, JsNumber.nan, JsNumber.nan⟩ } := by decide

example :
    calculateLayer2 mixedAllA { type := ("Blurred"), architectCount := 4, alchemistCount := 4 }
      = { subtype := (""), path := ("mixed"), scores := [] } := by decide

example :
    verifyDownloadToken [sampleExpiredToken] [sampleQuizRow] 20 ("expired-token")
      = DbResult.fail ("Invalid or expired token") := by decide

example :
    getQuizResultByEmail ("doe@example.com") [substringRow] = DbResult.ok substringRow := by
  decide

/-!
Part 5 — theorems for the claims.
-/

/-- C4: for an answer map with no VARK answers (all four bucket counts 0) the
code keeps `dominantModality = 'visual'` and throws nothing, but the claimed
guard against division by zero does not exist: `Math.round((0 / 0) * 100)` is
`NaN`, so every percentage is `NaN` rather than the claimed 0.  This theorem
evaluates `calculateLayer4` at the failing input, the empty answer map. -/
theorem calculateLayer4_zero_total_nan :
    calculateLayer4 (answersOfList []) =
      { dominantModality := ("visual")
        scores := ⟨0, 0, 0, 0⟩
        percentages := ⟨JsNumber.nan, JsNumber.nan, JsNumber.nan, JsNumber.nan⟩ } ∧
    (calculateLayer4 (answersOfList [])).percentages.visual ≠ JsNumber.int 0 := by
  constructor <;> decide

/-- C5 counterexample: the `/download` endpoint does not distinguish an
expired token from a never-issued token — both produce the identical response
`404 {error: 'Invalid or unknown link'}`.  The token `expired-token` really
was issued (the same request succeeds with a redirect before its expiry at
time 10), and `never-issued` is absent from the token store; at time 20 the
two requests are observably equal. -/
theorem downloadHandler_unknown_equals_expired :
    downloadHandler (some ("expired-token")) [sampleExpiredToken] [sampleQuizRow] 20 okPresign
        = downloadHandler (some ("never-issued")) [sampleExpiredToken] [sampleQuizRow] 20 okPresign ∧
    downloadHandler (some ("expired-token")) [sampleExpiredToken] [sampleQuizRow] 20 okPresign
        = ⟨404, RespBody.jsonError ("Invalid or unknown link")⟩ ∧
    downloadHandler (some ("expired-token")) [sampleExpiredToken] [sampleQuizRow] 9 okPresign
        = ⟨302, RespBody.redirect ("https://s3.example.com/signed")⟩ := by
  refine ⟨by decide, by decide, by decide⟩

/-- C6 counterexample: with every one of the eight mixed-path questions
`L2_Qm9` .. `L2_Qm16` answered `'a'` and Layer 1 Blurred, `calculateLayer2`
tallies nothing — the scores object stays empty and the subtype is the empty
string, refuting the claimed answer-to-subtype tally and arg-max on the mixed
path. -/
theorem calculateLayer2_mixed_all_answered_empty :
    (calculateLayer1 mixedAllA).type = ("Blurred") ∧
    calculateLayer2 mixedAllA (calculateLayer1 mixedAllA)
      = { subtype := (""), path := ("mixed"), scores := [] } := by
  refine ⟨by decide, by decide⟩

/-- C10: when no stored row matches the normalized query email exactly,
`getQuizResultByEmail` falls back to an `ILIKE '%<normalized>%'` substring
match: querying `doe@example.com` against a store holding only
`john.doe@example.com` succeeds and returns that row, whose stored email is a
different address merely containing the normalized query as a substring. -/
theorem getQuizResultByEmail_substring_fallback :
    getQuizResultByEmail ("doe@example.com") [substringRow] = DbResult.ok substringRow ∧
    substringRow.email ≠ ("doe@example.com") ∧
    sqlLowerTrim substringRow.email ≠ normalizeEmail ("doe@example.com") ∧
    iLikeContains substringRow.email (normalizeEmail ("doe@example.com")) = true := by
  refine ⟨by decide, by decide, by decide, by decide⟩

theorem l1Step_eq (answers : AnswerMap) (n m : Nat) (q : String) :
    l1Step answers (n, m) q =
      ((if answers q == some 'a' then n + 1 else n),
       (if answers q == some 'b' then m + 1 else m)) := by
  unfold l1Step
  by_cases ha : (answers q == some 'a') = true <;>
    by_cases hb : (answers q == some 'b') = true <;>
      simp [ha, hb]

theorem l1_fold_counts (answers : AnswerMap) (l : List String) (n m : Nat) :
    l.foldl (l1Step answers) (n, m)
      = (n + l.countP (fun q => answers q == some 'a'),
         m + l.countP (fun q => answers q == some 'b')) := by
  induction l generalizing n m with
  | nil => simp
  | cons q l ih =>
    rw [List.foldl_cons, l1Step_eq, ih, List.countP_cons, List.countP_cons]
    simp only [Prod.mk.injEq]
    constructor <;> split_ifs <;> omega

/-- C2: `calculateLayer1` counts the `'a'` and `'b'` answers over the eight
questions `L1_Q1` .. `L1_Q8` and classifies by the exact-count lookup table
(8/0, 7/1, 6/2 to Strong/Medium/Weak Architect; 0/8, 1/7, 2/6 to
Strong/Medium/Weak Alchemist; every other count combination, such as a 5/3
split, to Blurred). -/
theorem calculateLayer1_exact_count_table (answers : AnswerMap) :
    calculateLayer1 answers =
      { type := layer1TypeOfCounts (countChoice answers 'a') (countChoice answers 'b')
        architectCount := countChoice answers 'a'
        alchemistCount := countChoice answers 'b' } := by
  simp only [calculateLayer1, countChoice, layer1TypeOfCounts, l1_fold_counts, Nat.zero_add]

/-- C8: the Layer-6 personality core type is the 2-by-2 lookup on the answers
to `L6_Q37` and `L6_Q38` — (a,a), (a,b), (b,a), (b,b) give the four named
composite types and every other combination, including a missing answer,
gives the empty string. -/
theorem calculateLayer6_core_type_table (answers : AnswerMap) :
    (calculateLayer6 answers).personality.coreType
      = coreTypeSpec (answers ("L6_Q37")) (answers ("L6_Q38")) := by
  unfold calculateLayer6 coreTypeSpec
  rcases h37 : answers ("L6_Q37") with _ | c <;> rcases h38 : answers ("L6_Q38") with _ | d <;>
    simp [h37, h38]

theorem layer1_type_mem (answers : AnswerMap) :
    (calculateLayer1 answers).type ∈
      [("Strong Architect"), ("Medium Architect"), ("Weak Architect"),
       ("Strong Alchemist"), ("Medium Alchemist"), ("Weak Alchemist"), ("Blurred")] := by
  unfold calculateLayer1
  dsimp only
  split_ifs <;> simp

theorem layer2_path_mem (answers : AnswerMap) (layer1Result : Layer1Result) :
    (calculateLayer2 answers layer1Result).path ∈ [("architect"), ("alchemist"), ("mixed")] := by
  unfold calculateLayer2
  dsimp only
  split_ifs <;> simp

theorem layer3Score_le_two (answers : AnswerMap) (d : LabeledDim) :
    layer3Score answers d ≤ 2 := by
  unfold layer3Score
  split_ifs <;> omega

theorem sum_map_le_two_mul (f : LabeledDim → Nat) (h : ∀ d, f d ≤ 2) (l : List LabeledDim) :
    (l.map f).sum ≤ 2 * l.length := by
  induction l with
  | nil => simp
  | cons d l ih =>
    simp only [List.map_cons, List.sum_cons, List.length_cons]
    have hd := h d
    omega

theorem layer3_total_le (answers : AnswerMap) :
    (calculateLayer3 answers).totalScore ≤ 12 := by
  unfold calculateLayer3
  have h := sum_map_le_two_mul (fun d => layer3Score answers d)
    (fun d => layer3Score_le_two answers d) layer3Dims
  simpa [layer3Dims] using h

theorem layer3_dim_names (answers : AnswerMap) :
    (calculateLayer3 answers).dimensions.map Prod.fst = layer3Dims.map LabeledDim.name := by
  unfold calculateLayer3
  dsimp only
  simp [List.map_map, Function.comp]

theorem layer4_dominant_mem (answers : AnswerMap) :
    (calculateLayer4 answers).dominantModality
      ∈ [("visual"), ("auditory"), ("readWrite"), ("kinesthetic")] := by
  unfold calculateLayer4
  dsimp only
  generalize countModality answers 'a' = va
  generalize countModality answers 'b' = vb
  generalize countModality answers 'c' = vc
  generalize countModality answers 'd' = vd
  simp only [List.foldl_cons, List.foldl_nil]
  split_ifs <;> simp

theorem layer5_keys (answers : AnswerMap) :
    ∀ p ∈ (calculateLayer5 answers).profile, p.1 ∈ layer5Dims.map Prod.snd := by
  intro p hp
  unfold calculateLayer5 at hp
  simp only [List.mem_filterMap] at hp
  obtain ⟨d, hd, hopt⟩ := hp
  rcases hq : answers d.1 with _ | a <;> rw [hq] at hopt
  · simp at hopt
  · simp only [Option.map_some'] at hopt
    cases hopt
    exact List.mem_map_of_mem Prod.snd hd

theorem layer6_vocab (answers : AnswerMap) :
    (calculateLayer6 answers).mindset.growthFixed ∈ [("Growth"), ("Fixed")] ∧
    (calculateLayer6 answers).mindset.abundanceScarcity ∈ [("Abundance"), ("Scarcity")] ∧
    (calculateLayer6 answers).mindset.challengeComfort ∈ [("Challenge"), ("Comfort")] ∧
    (calculateLayer6 answers).personality.coreType ∈
      [("Confident & Steady"), ("Confident & Driven"), ("Considerate & Steady"),
       ("Fast-Moving & Adaptive"), ("")] ∧
    (calculateLayer6 answers).personality.communicationStyle
      ∈ [("Direct Communicator"), ("Diplomatic Communicator")] := by
  unfold calculateLayer6
  dsimp only
  refine ⟨?_, ?_, ?_, ?_, ?_⟩ <;> split_ifs <;> simp

theorem layer7_keys (answers : AnswerMap) :
    ∀ p ∈ (calculateLayer7 answers).beliefs, p.1 ∈ layer7Dims.map LabeledDim.name := by
  intro p hp
  unfold calculateLayer7 at hp
  simp only [List.mem_filterMap] at hp
  obtain ⟨d, hd, hopt⟩ := hp
  rcases hq : answers d.qid with _ | a <;> rw [hq] at hopt
  · simp at hopt
  · simp only [Option.map_some'] at hopt
    cases hopt
    exact List.mem_map_of_mem LabeledDim.name hd

/-- C1: for every answer map — including the empty map and maps with
unrecognized choice codes — `calculateAllResults` is total and returns a
structurally complete seven-layer result: every layer field is a fully formed
object, every categorical output stays inside its fixed vocabulary (missing
or malformed answers only reach the default branches), and the omission-style
layers (5 and 7) only ever omit, never corrupt, their fixed keys. -/
theorem calculateAllResults_structurally_complete (answers : AnswerMap) :
    structurallyComplete (calculateAllResults answers) := by
  have h6 := layer6_vocab answers
  exact ⟨layer1_type_mem answers, layer2_path_mem answers (calculateLayer1 answers), rfl,
    layer3_total_le answers, layer3_dim_names answers, layer4_dominant_mem answers,
    layer5_keys answers, h6.1, h6.2.1, h6.2.2.1, h6.2.2.2.1, h6.2.2.2.2,
    layer7_keys answers⟩

theorem foldl_match_skip (answers : AnswerMap) :
    ∀ (l : List String) (init : List (String × Nat)),
      l.foldl
        (fun scores qid =>
          match answers qid with
          | none => scores
          | some _ => scores) init = init := by
  intro l
  induction l with
  | nil => intro init; rfl
  | cons q l ih =>
    intro init
    rw [List.foldl_cons]
    cases answers q <;> exact ih init

/-- C6 amended: when Layer 1's type contains neither `Architect` nor
`Alchemist`, `calculateLayer2` takes the mixed path with question prefix
`L2_Qm` (indices 9..16), but no answer-to-subtype mapping exists for that
path: the loop's `scoreKey` stays `''`, no hit count is ever tallied, and the
result is always `path = 'mixed'` with an empty scores object and the empty
string as subtype, whatever the answers are. -/
theorem calculateLayer2_mixed_always_empty (answers : AnswerMap)
    (layer1Result : Layer1Result)
    (hA : jsIncludes layer1Result.type ("Architect") = false)
    (hB : jsIncludes layer1Result.type ("Alchemist") = false) :
    calculateLayer2 answers layer1Result
      = { subtype := (""), path := ("mixed"), scores := [] } := by
  unfold calculateLayer2
  simp only [hA, hB, Bool.false_eq_true, if_false]
  show ({ subtype :=
            capitalize
              ((List.foldl
                  (fun scores qid =>
                    match answers qid with
                    | none => scores
                    | some _ => scores) [] mixedQids).foldl
                (fun acc p => if p.2 > acc.2 then p else acc) ((""), 0)).1
          path := ("mixed")
          scores :=
            List.foldl
              (fun scores qid =>
                match answers qid with
                | none => scores
                | some _ => scores) [] mixedQids } : Layer2Result)
      = { subtype := (""), path := ("mixed"), scores := [] }
  rw [foldl_match_skip answers mixedQids]
  rfl

/-- C6 amended claim witness: the mixed-path behaviour at a concrete Blurred
Layer-1 result. -/
theorem calculateLayer2_mixed_always_empty_witness :
    calculateLayer2 (answersOfList [])
        { type := ("Blurred"), architectCount := 4, alchemistCount := 4 }
      = { subtype := (""), path := ("mixed"), scores := [] } :=
  calculateLayer2_mixed_always_empty (answersOfList [])
    { type := ("Blurred"), architectCount := 4, alchemistCount := 4 }
    (by decide) (by decide)

/-- C3: redemption treats the validity window as half-open — the single SQL
query of `verifyDownloadToken` succeeds only for a joined row whose
`expires_at` is strictly greater than the current time, and a token created
with `expiresAt = now + 0` (ttl 0) and redeemed immediately at `now` is
rejected with the `'Invalid or expired token'` error. -/
theorem verifyDownloadToken_strict_expiry :
    (∀ (tokens : List TokenRow) (quizzes : List QuizRow) (now : Int) (token : String)
        (row : TokenRow × QuizRow),
        verifyDownloadToken tokens quizzes now token = DbResult.ok row →
        row.1.token = token ∧ now < row.1.expires_at ∧ row.1 ∈ tokens ∧ row.2 ∈ quizzes ∧
          row.2.id = row.1.quiz_result_id) ∧
    (∀ (tokens : List TokenRow) (quizzes : List QuizRow) (quizResultId token : String)
        (now : Int) (tokens2 : List TokenRow),
        createDownloadToken token quizResultId (now + 0) now tokens quizzes
            = DbResult.ok tokens2 →
        verifyDownloadToken tokens2 quizzes now token
            = DbResult.fail ("Invalid or expired token")) := by
  constructor
  · intro tokens quizzes now token row h
    unfold verifyDownloadToken at h
    cases hf : List.filter (fun p => p.1.token == token && now < p.1.expires_at)
        (joinedRows tokens quizzes) with
    | nil =>
      rw [hf] at h
      cases h
    | cons r rest =>
      rw [hf] at h
      cases h
      have hr : row ∈ List.filter (fun p => p.1.token == token && now < p.1.expires_at)
          (joinedRows tokens quizzes) := by
        rw [hf]
        exact List.mem_cons_self row rest
      rw [List.mem_filter] at hr
      obtain ⟨hmem, hpred⟩ := hr
      simp only [Bool.and_eq_true, beq_iff_eq, decide_eq_true_eq] at hpred
      unfold joinedRows at hmem
      simp only [List.mem_flatMap, List.mem_map, List.mem_filter, beq_iff_eq] at hmem
      obtain ⟨t, ht, q, ⟨hq, hqid⟩, hrq⟩ := hmem
      refine ⟨hpred.1, hpred.2, ?_, ?_, ?_⟩
      · rw [← hrq]; exact ht
      · rw [← hrq]; exact hq
      · rw [← hrq]; exact hqid
  · intro tokens quizzes quizResultId token now tokens2 hc
    unfold createDownloadToken at hc
    split_ifs at hc with hdup hfk
    cases hc
    unfold verifyDownloadToken
    have hnil :
        List.filter (fun p => p.1.token == token && now < p.1.expires_at)
          (joinedRows
            (tokens ++
              [{ token := token, quiz_result_id := quizResultId
                 expires_at := now + 0, created_at := now }]) quizzes)
          = [] := by
      rw [List.filter_eq_nil_iff]
      intro p hp
      unfold joinedRows at hp
      simp only [List.mem_flatMap, List.mem_map, List.mem_filter, beq_iff_eq,
        List.mem_append, List.mem_singleton] at hp
      obtain ⟨t, ht, q, ⟨hq, hqid⟩, hrq⟩ := hp
      rw [← hrq]
      simp only [Bool.and_eq_true, beq_iff_eq, decide_eq_true_eq, not_and]
      intro htok hlt
      rcases ht with ht | ht
      · exact hdup (List.any_eq_true.mpr ⟨t, ht, by rw [beq_iff_eq]; exact htok⟩)
      · rw [ht] at hlt
        simp only [Int.add_zero] at hlt
        exact lt_irrefl now hlt
    rw [hnil]

/-- C3 witness: a token issued with ttl 0 at time 100 into an empty token
store and redeemed at time 100 is rejected as expired. -/
theorem verifyDownloadToken_strict_expiry_witness :
    verifyDownloadToken
        [{ token := ("ttl0-token"), quiz_result_id := ("r1"),
           expires_at := 100, created_at := 100 }]
        [sampleQuizRow] 100 ("ttl0-token")
      = DbResult.fail ("Invalid or expired token") :=
  verifyDownloadToken_strict_expiry.2 [] [sampleQuizRow] ("r1") ("ttl0-token") 100
    [{ token := ("ttl0-token"), quiz_result_id := ("r1"),
       expires_at := 100, created_at := 100 }] (by decide)

theorem saveUpdateRow_id (id : String) (results : ResultsPayload)
    (pdfUrl s3Key : Option String) (now : Int) (r : QuizRow) :
    (saveUpdateRow id results pdfUrl s3Key now r).id = r.id := by
  unfold saveUpdateRow
  split_ifs <;> rfl

theorem saveUpdateRow_comp (id : String) (results : ResultsPayload)
    (pdfUrl s3Key : Option String) (t1 t2 : Int) (r : QuizRow) :
    saveUpdateRow id results pdfUrl s3Key t2 (saveUpdateRow id results pdfUrl s3Key t1 r)
      = saveUpdateRow id results pdfUrl s3Key t2 r := by
  unfold saveUpdateRow
  by_cases hr : (r.id == id) = true
  · have hr2 : ((upsertFields r results pdfUrl s3Key t1).id == id) = true := hr
    rw [if_pos hr, if_pos hr, if_pos hr2]
    rfl
  · rw [if_neg hr, if_neg hr]

theorem saveUpdateRow_erase (id : String) (results : ResultsPayload)
    (pdfUrl s3Key : Option String) (t1 t2 : Int) (r : QuizRow) :
    eraseAudit (saveUpdateRow id results pdfUrl s3Key t2 r)
      = eraseAudit (saveUpdateRow id results pdfUrl s3Key t1 r) := by
  unfold saveUpdateRow
  by_cases hr : (r.id == id) = true
  · rw [if_pos hr, if_pos hr]; rfl
  · rw [if_neg hr, if_neg hr]

theorem any_map_of_id {α : Type} (f : α → α) (p : α → Bool) (hf : ∀ a, p (f a) = p a)
    (l : List α) : (l.map f).any p = l.any p := by
  induction l with
  | nil => rfl
  | cons a l ih => simp only [List.map_cons, List.any_cons, hf, ih]

theorem length_filter_map_of_id {α : Type} (f : α → α) (p : α → Bool)
    (hf : ∀ a, p (f a) = p a) (l : List α) :
    ((l.map f).filter p).length = (l.filter p).length := by
  induction l with
  | nil => rfl
  | cons a l ih =>
    simp only [List.map_cons, List.filter_cons, hf]
    cases hpa : p a <;> simp [ih]

theorem length_filter_one_of_pairwise (l : List QuizRow) (id : String)
    (hpw : List.Pairwise (fun a b => a.id ≠ b.id) l)
    (hany : l.any (fun r => r.id == id) = true) :
    (l.filter (fun r => r.id == id)).length = 1 := by
  induction l with
  | nil => cases hany
  | cons a l ih =>
    rw [List.pairwise_cons] at hpw
    obtain ⟨hha, hpl⟩ := hpw
    cases hpa : (a.id == id) with
    | true =>
      have haid : a.id = id := by rwa [beq_iff_eq] at hpa
      have hnil : l.filter (fun r => r.id == id) = [] := by
        rw [List.filter_eq_nil_iff]
        intro r hr hc
        rw [beq_iff_eq] at hc
        exact hha r hr (by rw [haid, hc])
      simp [List.filter_cons, hpa, hnil]
    | false =>
      have hany2 : l.any (fun r => r.id == id) = true := by
        rcases List.any_eq_true.mp hany with ⟨r, hr, hrp⟩
        rcases List.mem_cons.mp hr with hra | hrl
        · rw [hra] at hrp; rw [hrp] at hpa; cases hpa
        · exact List.any_eq_true.mpr ⟨r, hrl, hrp⟩
      simp [List.filter_cons, hpa, ih hpl hany2]

theorem map_id_of {α : Type} (l : List α) (f : α → α) (h : ∀ a ∈ l, f a = a) :
    l.map f = l := by
  induction l with
  | nil => rfl
  | cons a l ih =>
    simp only [List.map_cons]
    rw [h a (List.mem_cons_self a l), ih (fun b hb => h b (List.mem_cons_of_mem a hb))]

/-- C9: saving is idempotent with respect to repetition — after calling
`saveQuizResult` twice with identical id, email, name, results, pdfUrl and
s3Key arguments (at arbitrary times `t1`, `t2`), the `quiz_results` store
holds exactly one row for that id, that row's artifact columns hold the
last-written pdfUrl and s3Key, the store equals the single-call store up to
the `updated_at` audit column, and when the two calls carry the same
timestamp the store is literally identical to the single-call store. -/
theorem saveQuizResult_idempotent :
    ∀ (id email name : String) (results : ResultsPayload) (pdfUrl s3Key : Option String)
      (t1 t2 : Int) (store : List QuizRow),
      pkUniqueRows store →
      ((saveQuizResult id email name results pdfUrl s3Key t2
            (saveQuizResult id email name results pdfUrl s3Key t1 store)).filter
          (fun r => r.id == id)).length = 1 ∧
      (∀ r ∈ saveQuizResult id email name results pdfUrl s3Key t2
            (saveQuizResult id email name results pdfUrl s3Key t1 store),
          r.id = id → r.pdf_url = pdfUrl ∧ r.s3_key = s3Key) ∧
      (saveQuizResult id email name results pdfUrl s3Key t2
            (saveQuizResult id email name results pdfUrl s3Key t1 store)).map eraseAudit
          = (saveQuizResult id email name results pdfUrl s3Key t1 store).map eraseAudit ∧
      (t1 = t2 → saveQuizResult id email name results pdfUrl s3Key t2
            (saveQuizResult id email name results pdfUrl s3Key t1 store)
          = saveQuizResult id email name results pdfUrl s3Key t1 store) := by
  intro id email name results pdfUrl s3Key t1 t2 store hpk
  have hidp : ∀ (t : Int) (r : QuizRow),
      (fun r => r.id == id) (saveUpdateRow id results pdfUrl s3Key t r)
        = (fun r => r.id == id) r := by
    intro t r
    show ((saveUpdateRow id results pdfUrl s3Key t r).id == id) = (r.id == id)
    rw [saveUpdateRow_id]
  by_cases hmem : store.any (fun r => r.id == id) = true
  · have hs1 : saveQuizResult id email name results pdfUrl s3Key t1 store
        = store.map (saveUpdateRow id results pdfUrl s3Key t1) := by
      unfold saveQuizResult
      rw [if_pos hmem]
    have hany1 : (store.map (saveUpdateRow id results pdfUrl s3Key t1)).any
        (fun r => r.id == id) = true := by
      rw [any_map_of_id _ _ (hidp t1)]
      exact hmem
    have hcomp : (saveUpdateRow id results pdfUrl s3Key t2) ∘
          (saveUpdateRow id results pdfUrl s3Key t1)
        = saveUpdateRow id results pdfUrl s3Key t2 :=
      funext (saveUpdateRow_comp id results pdfUrl s3Key t1 t2)
    have hs2 : saveQuizResult id email name results pdfUrl s3Key t2
          (saveQuizResult id email name results pdfUrl s3Key t1 store)
        = store.map (saveUpdateRow id results pdfUrl s3Key t2) := by
      rw [hs1]
      unfold saveQuizResult
      rw [if_pos hany1, List.map_map, hcomp]
    refine ⟨?_, ?_, ?_, ?_⟩
    · rw [hs2, length_filter_map_of_id _ _ (hidp t2)]
      exact length_filter_one_of_pairwise store id hpk hmem
    · intro r hr hid
      rw [hs2] at hr
      rcases List.mem_map.mp hr with ⟨r0, hr0, hrr⟩
      by_cases h0 : (r0.id == id) = true
      · have hru : r = upsertFields r0 results pdfUrl s3Key t2 := by
          rw [← hrr]
          unfold saveUpdateRow
          rw [if_pos h0]
        rw [hru]
        exact ⟨rfl, rfl⟩
      · exfalso
        have hrr0 : r = r0 := by
          rw [← hrr]
          unfold saveUpdateRow
          rw [if_neg h0]
        rw [hrr0] at hid
        exact h0 (by rw [beq_iff_eq]; exact hid)
    · rw [hs2, hs1, List.map_map, List.map_map,
        show eraseAudit ∘ saveUpdateRow id results pdfUrl s3Key t2
            = eraseAudit ∘ saveUpdateRow id results pdfUrl s3Key t1 from
          funext (saveUpdateRow_erase id results pdfUrl s3Key t1 t2)]
    · intro ht
      subst ht
      rw [hs2, hs1]
  · have hnotmem : ∀ r ∈ store, (r.id == id) = false := by
      intro r hr
      cases h : (r.id == id) with
      | false => rfl
      | true => exact absurd (List.any_eq_true.mpr ⟨r, hr, h⟩) hmem
    have hs1 : saveQuizResult id email name results pdfUrl s3Key t1 store
        = store ++ [newQuizRow id email name results pdfUrl s3Key t1] := by
      unfold saveQuizResult
      rw [if_neg hmem]
    have hanynew : (store ++ [newQuizRow id email name results pdfUrl s3Key t1]).any
        (fun r => r.id == id) = true := by
      rw [List.any_append]
      have : ((newQuizRow id email name results pdfUrl s3Key t1).id == id) = true := by
        rw [beq_iff_eq]
        rfl
      simp [List.any_cons, this]
    have hstore2 : store.map (saveUpdateRow id results pdfUrl s3Key t2) = store := by
      apply map_id_of
      intro r hr
      unfold saveUpdateRow
      rw [if_neg (by rw [hnotmem r hr]; exact Bool.false_ne_true)]
    have hnew2 : saveUpdateRow id results pdfUrl s3Key t2
          (newQuizRow id email name results pdfUrl s3Key t1)
        = { newQuizRow id email name results pdfUrl s3Key t1 with updated_at := t2 } := by
      unfold saveUpdateRow
      rw [if_pos (by rw [beq_iff_eq]; rfl)]
      rfl
    have hs2 : saveQuizResult id email name results pdfUrl s3Key t2
          (saveQuizResult id email name results pdfUrl s3Key t1 store)
        = store ++ [{ newQuizRow id email name results pdfUrl s3Key t1 with updated_at := t2 }] := by
      rw [hs1]
      unfold saveQuizResult
      rw [if_pos hanynew, List.map_append, hstore2, List.map_cons, List.map_nil, hnew2]
    refine ⟨?_, ?_, ?_, ?_⟩
    · rw [hs2, List.filter_append]
      have hfstore : store.filter (fun r => r.id == id) = [] := by
        rw [List.filter_eq_nil_iff]
        intro r hr hc
        rw [hnotmem r hr] at hc
        cases hc
      rw [hfstore]
      simp [List.filter_cons, newQuizRow]
    · intro r hr hid
      rw [hs2] at hr
      rcases List.mem_append.mp hr with hrs | hrn
      · exfalso
        have h2 := beq_iff_eq.mpr hid
        rw [hnotmem r hrs] at h2
        cases h2
      · rcases List.mem_singleton.mp hrn with rfl
        exact ⟨rfl, rfl⟩
    · rw [hs2, hs1, List.map_append, List.map_append]
      rfl
    · intro ht
      subst ht
      rw [hs2, hs1]
      rfl

/-- C9 witness: two identical saves into an empty store leave exactly one row
for the id. -/
theorem saveQuizResult_idempotent_witness :
    ((saveQuizResult ("r9") (" User@Example.com ") ("User") samplePayload
          (some ("https://cdn.example.com/u.pdf")) (some ("pdfs/u.pdf")) 2
          (saveQuizResult ("r9") (" User@Example.com ") ("User") samplePayload
            (some ("https://cdn.example.com/u.pdf")) (some ("pdfs/u.pdf")) 1 [])).filter
        (fun r => r.id == ("r9"))).length = 1 :=
  (saveQuizResult_idempotent ("r9") (" User@Example.com ") ("User") samplePayload
    (some ("https://cdn.example.com/u.pdf")) (some ("pdfs/u.pdf")) 1 2 []
    (by simp [pkUniqueRows])).1

/-- C5 amended: the `/download` endpoint distinguishes three error outcomes,
not four — a missing (or empty) token parameter gives `400 Missing token`, a
token that `verifyDownloadToken` rejects gives `404 Invalid or unknown link`
(unknown and expired tokens share this single response, because the lookup
and the expiry check are one SQL query), and a presigned-URL failure on a
valid token gives `500 Could not generate download link`; a valid token with
working storage redirects (302) to the fresh presigned URL.  The three error
responses are pairwise distinct. -/
theorem downloadHandler_three_outcomes :
    ∀ (tokens : List TokenRow) (quizzes : List QuizRow) (now : Int)
      (presign : Option String → DbResult String),
    (downloadHandler none tokens quizzes now presign
        = ⟨400, RespBody.jsonError ("Missing token")⟩) ∧
    (downloadHandler (some ("")) tokens quizzes now presign
        = ⟨400, RespBody.jsonError ("Missing token")⟩) ∧
    (∀ (token e : String), token ≠ ("") →
        verifyDownloadToken tokens quizzes now token = DbResult.fail e →
        downloadHandler (some token) tokens quizzes now presign
          = ⟨404, RespBody.jsonError ("Invalid or unknown link")⟩) ∧
    (∀ (token e : String) (record : TokenRow × QuizRow), token ≠ ("") →
        verifyDownloadToken tokens quizzes now token = DbResult.ok record →
        presign record.2.s3_key = DbResult.fail e →
        downloadHandler (some token) tokens quizzes now presign
          = ⟨500, RespBody.jsonError ("Could not generate download link")⟩) ∧
    (∀ (token url : String) (record : TokenRow × QuizRow), token ≠ ("") →
        verifyDownloadToken tokens quizzes now token = DbResult.ok record →
        presign record.2.s3_key = DbResult.ok url →
        downloadHandler (some token) tokens quizzes now presign
          = ⟨302, RespBody.redirect url⟩) ∧
    ((⟨400, RespBody.jsonError ("Missing token")⟩ : HttpResponse)
        ≠ ⟨404, RespBody.jsonError ("Invalid or unknown link")⟩) ∧
    ((⟨400, RespBody.jsonError ("Missing token")⟩ : HttpResponse)
        ≠ ⟨500, RespBody.jsonError ("Could not generate download link")⟩) ∧
    ((⟨404, RespBody.jsonError ("Invalid or unknown link")⟩ : HttpResponse)
        ≠ ⟨500, RespBody.jsonError ("Could not generate download link")⟩) := by
  intro tokens quizzes now presign
  refine ⟨rfl, rfl, ?_, ?_, ?_, by decide, by decide, by decide⟩
  · intro token e hne hv
    unfold downloadHandler
    dsimp only
    rw [show (token == ("")) = false from by simp [hne]]
    simp only [Bool.false_eq_true, if_false, hv]
  · intro token e record hne hv hp
    unfold downloadHandler
    dsimp only
    rw [show (token == ("")) = false from by simp [hne]]
    simp only [Bool.false_eq_true, if_false, hv, hp]
  · intro token url record hne hv hp
    unfold downloadHandler
    dsimp only
    rw [show (token == ("")) = false from by simp [hne]]
    simp only [Bool.false_eq_true, if_false, hv, hp]

/-- C5 amended claim witness: a never-issued token against empty stores gets
the 404 response. -/
theorem downloadHandler_three_outcomes_witness :
    downloadHandler (some ("never-issued")) [] [] 0 okPresign
      = ⟨404, RespBody.jsonError ("Invalid or unknown link")⟩ :=
  (downloadHandler_three_outcomes [] [] 0 okPresign).2.2.1 ("never-issued")
    ("Invalid or expired token") (by decide) (by decide)

theorem land_lor_6 : ∀ x : Fin 256, Nat.lor (Nat.land x.val 15) 64 = x.val % 16 + 64 := by
  decide

theorem land_lor_8 : ∀ x : Fin 256, Nat.lor (Nat.land x.val 63) 128 = x.val % 64 + 128 := by
  decide

theorem masked_eq_expand (r : Fin 16 → Fin 256) :
    uuidMaskedBytes r = expandFreeBits (compressBits r) := by
  funext i
  fin_cases i <;>
    simp [uuidMaskedBytes, expandFreeBits, compressBits, land_lor_6, land_lor_8] <;>
    rfl

theorem possibleUuidTokens_card_le : possibleUuidTokens.card ≤ 2 ^ 122 := by
  have hfun : uuidv4 = (fun d => uuidStringify (expandFreeBits d)) ∘ compressBits := by
    funext r
    show uuidStringify (uuidMaskedBytes r) = uuidStringify (expandFreeBits (compressBits r))
    rw [masked_eq_expand]
  have himg : possibleUuidTokens
      = Finset.image (fun d => uuidStringify (expandFreeBits d))
          (Finset.image compressBits Finset.univ) := by
    rw [possibleUuidTokens, hfun, ← Finset.image_image]
  have hcard : Fintype.card UuidFreeBits = 2 ^ 122 := by
    rw [Fintype.card_prod, Fintype.card_prod, Fintype.card_fun,
      Fintype.card_fin, Fintype.card_fin, Fintype.card_fin]
    norm_num
  calc possibleUuidTokens.card
      = (Finset.image (fun d => uuidStringify (expandFreeBits d))
          (Finset.image compressBits Finset.univ)).card := by rw [himg]
    _ ≤ (Finset.image compressBits Finset.univ).card := Finset.card_image_le
    _ ≤ Fintype.card UuidFreeBits := by
        rw [← Finset.card_univ]
        exact Finset.card_le_card (Finset.subset_univ _)
    _ = 2 ^ 122 := hcard

/-- C7 counterexample: the token handed outward is `uuidv4()`, a function of
16 CSPRNG bytes with the version and variant bits forced, so fewer than
`2 ^ 256` distinct token values are possible — the claimed 256 bits of
entropy cannot exist. -/
theorem uuid_token_entropy_below_256 : ¬ (2 ^ 256 ≤ possibleUuidTokens.card) := by
  intro hle
  have h1 : possibleUuidTokens.card ≤ 2 ^ 122 := possibleUuidTokens_card_le
  have h2 : (2 : Nat) ^ 122 < 2 ^ 256 := by norm_num
  omega

/-- C7 amended: every download token minted by the pipeline is a version-4
UUID produced from 16 cryptographically random bytes with 6 bits forced to
the version and variant, so the set of possible tokens has at most `2 ^ 122`
elements — the token carries at most 122 bits of entropy, not the claimed
256 or more. -/
theorem uuid_token_entropy_at_most_122 : possibleUuidTokens.card ≤ 2 ^ 122 :=
  possibleUuidTokens_card_le
